import Mathlib

/-!
Verification of the tool-orchestration and session subsystem.

Shallow embedding of `src/backend/search_tools.py` (CourseSearchTool,
CourseOutlineTool, ToolManager) and of the SessionManager implementation
contained in `src/backend/tests/test_session_manager.py`.  Python dicts are
modelled as association lists with unique keys, optional/absent values as
`Option`, Python truthiness of strings and integers explicitly, and the
mutable per-instance citation attributes as an explicit state record threaded
through `execute`.
-/

/-- Python truthiness of an optional string: `None` and `""` are falsy. -/
def pyTruthyStr : Option String → Bool
  | none => false
  | some s => s != ""

/-- Python truthiness of an optional integer: `None` and `0` are falsy. -/
def pyTruthyInt : Option Int → Bool
  | none => false
  | some n => n != 0

/-- First-match lookup in an association list (Python dict read). -/
def lookupKey {α : Type} : List (String × α) → String → Option α
  | [], _ => none
  | (k, v) :: rest, key => if k = key then some v else lookupKey rest key

/-- In-place update of an existing key (Python dict assignment on a present key). -/
def updateKey {α : Type} : List (String × α) → String → α → List (String × α)
  | [], _, _ => []
  | (k, v) :: rest, key, newV =>
    if k = key then (k, newV) :: rest else (k, v) :: updateKey rest key newV

/-- Removal of a key (Python `del d[key]`). -/
def eraseKey {α : Type} : List (String × α) → String → List (String × α)
  | [], _ => []
  | (k, v) :: rest, key =>
    if k = key then rest else (k, v) :: eraseKey rest key

/-- A dialogue message: the `{"role": ..., "content": ...}` dict appended by
`SessionManager.add_message`. -/
structure Message where
  role : String
  content : String
deriving Repr, DecidableEq

/-- The state of `SessionManager` (`test_session_manager.py`): the `max_history`
bound and the `sessions` dict mapping session ids to message lists. -/
structure SessionManager where
  max_history : Nat
  sessions : List (String × List Message)
deriving Repr, DecidableEq

/-- Core of `SessionManager.add_message` on a single session's history: append
the `{role, content}` dict, then if the length exceeds `max_history * 2`, drop
the oldest two entries (`self.sessions[session_id][2:]`). -/
def addMessageHist (max_history : Nat) (hist : List Message)
    (role content : String) : List Message :=
  if (hist ++ [Message.mk role content]).length > max_history * 2 then
    (hist ++ [Message.mk role content]).drop 2
  else
    hist ++ [Message.mk role content]

/-- `SessionManager.add_message`: raises `ValueError` (modelled as `.error`)
when the id is unknown, otherwise appends and trims via `addMessageHist`. -/
def SessionManager.add_message (sm : SessionManager)
    (session_id role content : String) : Except String SessionManager :=
  match lookupKey sm.sessions session_id with
  | none => .error ("Session " ++ session_id ++ " not found")
  | some hist =>
    .ok { sm with
          sessions := updateKey sm.sessions session_id
            (addMessageHist sm.max_history hist role content) }

/-- `SessionManager.get_session_history`: raises `ValueError` (modelled as
`.error`) when the id is unknown, otherwise returns the stored list. -/
def SessionManager.get_session_history (sm : SessionManager)
    (session_id : String) : Except String (List Message) :=
  match lookupKey sm.sessions session_id with
  | none => .error ("Session " ++ session_id ++ " not found")
  | some hist => .ok hist

/-- `SessionManager.session_exists`: membership test on the sessions dict. -/
def SessionManager.session_exists (sm : SessionManager) (session_id : String) : Bool :=
  (lookupKey sm.sessions session_id).isSome

/-- `SessionManager.delete_session`: deletes and returns `true` when the id is
present, returns `false` without raising otherwise. -/
def SessionManager.delete_session (sm : SessionManager)
    (session_id : String) : Bool × SessionManager :=
  match lookupKey sm.sessions session_id with
  | some _ => (true, { sm with sessions := eraseKey sm.sessions session_id })
  | none => (false, sm)

/-- `SessionManager.create_session` with the generated uuid passed in
explicitly (id generation is external randomness): initialises empty history. -/
def SessionManager.create_session (sm : SessionManager)
    (session_id : String) : SessionManager :=
  { sm with sessions := sm.sessions ++ [(session_id, [])] }

/-- `SessionManager.get_formatted_history` on a history list: the
`"{role}: {content}"` lines joined by newlines. -/
def formatHistory (hist : List Message) : String :=
  String.intercalate "\n" (hist.map (fun m => m.role ++ ": " ++ m.content))

/-- A sequence of `add_message` calls on one session, starting from the empty
history a fresh session gets: folds `addMessageHist` over the (role, content)
pairs. -/
def runAdds (max_history : Nat) (msgs : List (String × String)) : List Message :=
  msgs.foldl (fun h p => addMessageHist max_history h p.1 p.2) []

/-- Metadata dict of one search hit: the `course_title` and `lesson_number`
keys read by `_format_results` (`none` models an absent key or `None`). -/
structure Metadata where
  course_title : Option String
  lesson_number : Option Int
deriving Repr, DecidableEq

/-- `SearchResults` as consumed by the search tool: index-aligned documents
and metadata, plus an optional error string. -/
structure SearchResults where
  documents : List String
  metadata : List Metadata
  error : Option String
deriving Repr, DecidableEq

/-- Modelled from the spec: `SearchResults.is_empty` lives in
`vector_store.py`, which is not among the sources.  The spec calls this branch
"result set empty" with documents and metadata index-aligned, so it tests the
documents list for emptiness. -/
def SearchResults.is_empty (r : SearchResults) : Bool :=
  r.documents.isEmpty

/-- One lesson dict inside a course-info dict: `number`, `title`, `link` keys,
`none` modelling an absent key. -/
structure Lesson where
  number : Option Int
  title : Option String
  link : Option String
deriving Repr, DecidableEq

/-- A course-info dict returned by `get_course_by_title`: `title`, `link`,
`instructor`, `lessons` keys (absent `lessons` coincides with `[]` through the
`get("lessons", [])` default). -/
structure CourseInfo where
  title : Option String
  link : Option String
  instructor : Option String
  lessons : List Lesson
deriving Repr, DecidableEq

/-- The content-store interface the tools consume (the external `VectorStore`
collaborator), one function field per method used by `search_tools.py`. -/
structure VectorStore where
  search : String → Option String → Option Int → SearchResults
  get_lesson_link : String → Int → Option String
  get_course_link : String → Option String
  get_course_by_title : String → Option CourseInfo
  get_all_course_titles : List String

/-- The mutable citation attributes of a tool instance: `last_sources` and
`last_source_links`.  The latter is `none` until `_format_results` (or
`_format_course_outline`) first assigns it, since `__init__` only initialises
`last_sources`. -/
structure CitationState where
  last_sources : List String
  last_source_links : Option (List (Option String))
deriving Repr, DecidableEq

/-- The citation state set up by `CourseSearchTool.__init__` /
`CourseOutlineTool.__init__`. -/
def initCitationState : CitationState := ⟨[], none⟩

/-- The context header built for one result pair in `_format_results`:
`"[{course_title}"`, plus `" - Lesson {n}"` exactly when `lesson_number`
`is not None`, plus `"]"`. -/
def CourseSearchTool.header (meta : Metadata) : String :=
  "[" ++ meta.course_title.getD "unknown" ++
    (match meta.lesson_number with
     | some n => " - Lesson " ++ toString n
     | none => "") ++ "]"

/-- The UI source label tracked for one result pair in `_format_results`. -/
def CourseSearchTool.source_label (meta : Metadata) : String :=
  meta.course_title.getD "unknown" ++
    (match meta.lesson_number with
     | some n => " - Lesson " ++ toString n
     | none => "")

/-- Link resolution of `_format_results`: try `get_lesson_link` when a lesson
number is present; when the result is falsy (absent or empty), fall back to
`get_course_link`. -/
def CourseSearchTool.source_link (store : VectorStore) (meta : Metadata) :
    Option String :=
  let link : Option String :=
    match meta.lesson_number with
    | some n => store.get_lesson_link (meta.course_title.getD "unknown") n
    | none => none
  if pyTruthyStr link then link
  else store.get_course_link (meta.course_title.getD "unknown")

/-- The `formatted` list built by the loop of `_format_results`: one
`"{header}\n{doc}"` block per `zip(documents, metadata)` pair, in store
order (`strict=False`: the zip truncates to the shorter list). -/
def CourseSearchTool.formatted (results : SearchResults) : List String :=
  (results.documents.zip results.metadata).map
    (fun p => CourseSearchTool.header p.2 ++ "\n" ++ p.1)

/-- The `sources` list built by the loop of `_format_results`. -/
def CourseSearchTool.sources (results : SearchResults) : List String :=
  (results.documents.zip results.metadata).map
    (fun p => CourseSearchTool.source_label p.2)

/-- The `source_links` list built by the loop of `_format_results`. -/
def CourseSearchTool.source_links (store : VectorStore)
    (results : SearchResults) : List (Option String) :=
  (results.documents.zip results.metadata).map
    (fun p => CourseSearchTool.source_link store p.2)

/-- `CourseSearchTool._format_results`: joins the blocks with a blank line and
assigns `last_sources` / `last_source_links`, overwriting the prior state. -/
def CourseSearchTool.format_results (store : VectorStore)
    (results : SearchResults) (_st : CitationState) : String × CitationState :=
  (String.intercalate "\n\n" (CourseSearchTool.formatted results),
   ⟨CourseSearchTool.sources results,
    some (CourseSearchTool.source_links store results)⟩)

/-- The empty-result message of `CourseSearchTool.execute`: `filter_info` is
built with Python truthiness tests (`if course_name:` / `if lesson_number:`),
so an empty course name or a lesson number of 0 adds no suffix. -/
def CourseSearchTool.no_content_message (course_name : Option String)
    (lesson_number : Option Int) : String :=
  "No relevant content found" ++
    (match course_name with
     | some cn => if cn != "" then " in course '" ++ cn ++ "'" else ""
     | none => "") ++
    (match lesson_number with
     | some n => if n != 0 then " in lesson " ++ toString n else ""
     | none => "") ++ "."

/-- `CourseSearchTool.execute`: delegates to `store.search`, then branches on
a truthy error, an empty result set, and otherwise formats.  The citation
state is threaded explicitly: only the formatting branch touches it. -/
def CourseSearchTool.execute (store : VectorStore) (query : String)
    (course_name : Option String) (lesson_number : Option Int)
    (st : CitationState) : String × CitationState :=
  let results := store.search query course_name lesson_number
  if pyTruthyStr results.error then
    (results.error.getD "", st)
  else if results.is_empty then
    (CourseSearchTool.no_content_message course_name lesson_number, st)
  else
    CourseSearchTool.format_results store results st

/-- The lines `_format_course_outline` appends for one lesson:
`"  {number}. {title}"` plus the indented link sub-line when the link is
truthy and not the `"No link available"` sentinel. -/
def CourseOutlineTool.lesson_lines (lesson : Lesson) : List String :=
  let lesson_num :=
    match lesson.number with
    | some n => toString n
    | none => "N/A"
  let lesson_title := lesson.title.getD "No title"
  let lesson_link := lesson.link.getD "No link available"
  ["  " ++ lesson_num ++ ". " ++ lesson_title] ++
    (if lesson_link != "" && lesson_link != "No link available" then
       ["     Link: " ++ lesson_link]
     else [])

/-- `CourseOutlineTool._format_course_outline`: renders the outline and
assigns the singleton citation state (title, course link). -/
def CourseOutlineTool.format_course_outline (course_info : CourseInfo) :
    String × CitationState :=
  let course_title := course_info.title.getD "Unknown Course"
  let course_link := course_info.link.getD "No link available"
  let instructor := course_info.instructor.getD "Unknown instructor"
  let lessons := course_info.lessons
  let lines :=
    ["**Course:** " ++ course_title,
     "**Instructor:** " ++ instructor,
     "**Course Link:** " ++ course_link,
     ""] ++
    (if lessons.isEmpty then
       ["**No lessons available**"]
     else
       ["**Lessons:**"] ++ (lessons.map CourseOutlineTool.lesson_lines).flatten ++
         ["", "**Total Lessons:** " ++ toString lessons.length])
  (String.intercalate "\n" lines,
   ⟨[course_title], some [some course_link]⟩)

/-- `CourseOutlineTool.execute`: looks the course up; not found returns the
error text with all available titles and leaves the citation state alone;
found delegates to `_format_course_outline`. -/
def CourseOutlineTool.execute (store : VectorStore) (course_title : String)
    (st : CitationState) : String × CitationState :=
  match store.get_course_by_title course_title with
  | none =>
    ("Course '" ++ course_title ++ "' not found. Available courses: " ++
       String.intercalate ", " store.get_all_course_titles, st)
  | some info => CourseOutlineTool.format_course_outline info

/-- A registered tool as `ToolManager` sees it: an `execute` entry point over
kwargs and the optionally-present citation attributes (`none` models a missing
attribute for the `hasattr` probes). -/
structure Tool where
  exec : List (String × String) → String
  last_sources : Option (List String)
  last_source_links : Option (List (Option String))

/-- `ToolManager` state: the `tools` dict, insertion-ordered. -/
structure ToolManager where
  tools : List (String × Tool)

/-- `ToolManager.execute_tool`: unknown name returns the descriptive string,
known name forwards the kwargs to the tool's `execute`. -/
def ToolManager.execute_tool (tm : ToolManager) (tool_name : String)
    (kwargs : List (String × String)) : String :=
  match lookupKey tm.tools tool_name with
  | none => "Tool '" ++ tool_name ++ "' not found"
  | some t => t.exec kwargs

/-- The scan of `ToolManager.get_last_sources`: first tool, in insertion
order, with a present and truthy (non-empty) `last_sources` attribute. -/
def getLastSourcesAux : List (String × Tool) → List String
  | [] => []
  | (_, t) :: rest =>
    match t.last_sources with
    | some ls => if ls.isEmpty then getLastSourcesAux rest else ls
    | none => getLastSourcesAux rest

/-- `ToolManager.get_last_sources`. -/
def ToolManager.get_last_sources (tm : ToolManager) : List String :=
  getLastSourcesAux tm.tools

/-- A store with no content: every search returns the empty result and no
links or courses exist.  Concrete fixture for counterexamples/witnesses. -/
def emptyStore : VectorStore :=
  ⟨fun _ _ _ => ⟨[], [], none⟩, fun _ _ => none, fun _ => none,
   fun _ => none, []⟩

/-- A concrete fixture: the query "err" fails with a store error, any other
query returns one hit in "Course T", lesson 1. -/
def cexStore : VectorStore :=
  ⟨fun q _ _ =>
     if q = "err" then ⟨[], [], some "Store error"⟩
     else ⟨["doc text"], [⟨some "Course T", some 1⟩], none⟩,
   fun _ _ => some "http://lesson", fun _ => some "http://course",
   fun _ => none, []⟩

/-- A concrete registered tool holding one citation. -/
def toolA : Tool := ⟨fun _ => "resA", some ["a1"], none⟩

/-- A second concrete registered tool holding one citation. -/
def toolB : Tool := ⟨fun _ => "resB", some ["b1"], none⟩

-- Helper lemmas about the trimming step.

lemma addMessageHist_length_le (m : Nat) (hist : List Message) (r c : String)
    (h : hist.length ≤ m * 2) :
    (addMessageHist m hist r c).length ≤ m * 2 := by
  unfold addMessageHist
  split
  · simp only [List.length_drop, List.length_append, List.length_singleton]
    omega
  · rename_i hc
    simp only [List.length_append, List.length_singleton, not_lt] at hc ⊢
    omega

lemma foldl_addMessageHist_length_le (m : Nat) (msgs : List (String × String))
    (hist : List Message) (h : hist.length ≤ m * 2) :
    (msgs.foldl (fun h p => addMessageHist m h p.1 p.2) hist).length ≤ m * 2 := by
  induction msgs generalizing hist with
  | nil => simpa using h
  | cons p rest ih =>
    simp only [List.foldl_cons]
    exact ih _ (addMessageHist_length_le m hist p.1 p.2 h)

lemma runAdds_length_le (m : Nat) (msgs : List (String × String)) :
    (runAdds m msgs).length ≤ m * 2 :=
  foldl_addMessageHist_length_le m msgs [] (by simp)

/-- C2 counterexample: with `max_history = 2`, after the single `add_message`
call `(user, "Hello")` on a fresh session the stored history has length 1,
which is odd — the claimed "always even" invariant fails. -/
theorem C2_counterexample :
    (runAdds 2 [("user", "Hello")]).length = 1 ∧
    ¬ (runAdds 2 [("user", "Hello")]).length % 2 = 0 := by
  constructor
  · rfl
  · decide

/-- C2 (amended): for every maxHistory bound and every sequence of
`add_message` calls on a session, the stored history length is at most
`2 × maxHistory`.  (The length is not always even: each append flips its
parity, so it is odd after an odd number of appends.) -/
theorem C2_history_bounded (m : Nat) (msgs : List (String × String)) :
    (runAdds m msgs).length ≤ m * 2 :=
  runAdds_length_le m msgs

/-- C4: whenever the append makes the history exceed `2 × maxHistory`, exactly
the two oldest entries are dropped; with `maxHistory = 0` the history is empty
after every sequence of appends; with `maxHistory = 1`, appending
(user, First), (assistant, R1), (user, Second), (assistant, R2) leaves exactly
the last pair. -/
theorem C4_trim_pairs (m : Nat) (hist : List Message) (r c : String)
    (msgs : List (String × String)) :
    ((hist ++ [Message.mk r c]).length > m * 2 →
      addMessageHist m hist r c = (hist ++ [Message.mk r c]).drop 2) ∧
    (runAdds 0 msgs).length = 0 ∧
    runAdds 1 [("user", "First"), ("assistant", "R1"),
               ("user", "Second"), ("assistant", "R2")] =
      [Message.mk "user" "Second", Message.mk "assistant" "R2"] := by
  refine ⟨fun h => ?_, ?_, ?_⟩
  · unfold addMessageHist
    rw [if_pos h]
  · exact Nat.le_zero.mp (runAdds_length_le 0 msgs)
  · rfl

/-- C4 witness: concrete instantiation — with `maxHistory = 1` and history
already holding one pair, adding a third message drops the oldest pair. -/
theorem C4_trim_pairs_witness :
    addMessageHist 1 [Message.mk "user" "First", Message.mk "assistant" "R1"]
        "user" "Second" =
      ([Message.mk "user" "First", Message.mk "assistant" "R1"] ++
        [Message.mk "user" "Second"]).drop 2 :=
  (C4_trim_pairs 1 [Message.mk "user" "First", Message.mk "assistant" "R1"]
    "user" "Second" []).1 (by decide)

lemma lookupKey_eq_none_of_not_mem {α : Type} (l : List (String × α)) (k : String)
    (h : k ∉ l.map Prod.fst) : lookupKey l k = none := by
  induction l with
  | nil => rfl
  | cons p rest ih =>
    simp only [List.map_cons, List.mem_cons, not_or] at h
    simp only [lookupKey]
    rw [if_neg (fun he => h.1 he.symm)]
    exact ih h.2

lemma lookupKey_eraseKey_self {α : Type} (l : List (String × α)) (k : String)
    (h : (l.map Prod.fst).Nodup) : lookupKey (eraseKey l k) k = none := by
  induction l with
  | nil => rfl
  | cons p rest ih =>
    simp only [List.map_cons, List.nodup_cons] at h
    by_cases he : p.1 = k
    · have : eraseKey (p :: rest) k = rest := by
        cases p with
        | mk a v => simp only [eraseKey, if_pos he]
      rw [this]
      exact lookupKey_eq_none_of_not_mem rest k (he ▸ h.1)
    · have : eraseKey (p :: rest) k = p :: eraseKey rest k := by
        cases p with
        | mk a v => simp only [eraseKey, if_neg he]
      rw [this]
      cases p with
      | mk a v =>
        simp only [lookupKey, if_neg he]
        exact ih h.2

/-- C8: on an id absent from the sessions dict, `get_session_history` and
`add_message` fail with the not-found error while `delete_session` returns
`false` and leaves the store untouched; on a present id (keys of a dict being
unique) `delete_session` returns `true` and afterwards `session_exists` is
`false`. -/
theorem C8_missing_id_asymmetry (sm : SessionManager) (sid role content : String)
    (hnd : (sm.sessions.map Prod.fst).Nodup) :
    (lookupKey sm.sessions sid = none →
      sm.get_session_history sid = .error ("Session " ++ sid ++ " not found") ∧
      sm.add_message sid role content =
        .error ("Session " ++ sid ++ " not found") ∧
      (sm.delete_session sid).1 = false ∧
      (sm.delete_session sid).2 = sm) ∧
    ((lookupKey sm.sessions sid).isSome →
      (sm.delete_session sid).1 = true ∧
      ((sm.delete_session sid).2).session_exists sid = false) := by
  constructor
  · intro h
    refine ⟨?_, ?_, ?_, ?_⟩
    · simp [SessionManager.get_session_history, h]
    · simp [SessionManager.add_message, h]
    · simp [SessionManager.delete_session, h]
    · simp [SessionManager.delete_session, h]
  · intro h
    match hl : lookupKey sm.sessions sid with
    | none => simp [hl] at h
    | some hist =>
      refine ⟨by simp [SessionManager.delete_session, hl], ?_⟩
      simp only [SessionManager.delete_session, hl,
        SessionManager.session_exists]
      rw [lookupKey_eraseKey_self sm.sessions sid hnd]
      rfl

/-- C8 witness: a store with the single session "s" with empty history — the
missing id "t" fails reads and delete returns false; deleting "s" returns
true and "s" no longer exists. -/
theorem C8_missing_id_asymmetry_witness :
    ((SessionManager.mk 2 [("s", [])]).delete_session "t").1 = false ∧
    (((SessionManager.mk 2 [("s", [])]).delete_session "s").1 = true ∧
      (((SessionManager.mk 2 [("s", [])]).delete_session "s").2).session_exists
        "s" = false) :=
  ⟨((C8_missing_id_asymmetry (SessionManager.mk 2 [("s", [])]) "t" "user" "x"
      (by decide)).1 (by decide)).2.2.1,
    (C8_missing_id_asymmetry (SessionManager.mk 2 [("s", [])]) "s" "user" "x"
      (by decide)).2 (by decide)⟩

-- Helper lemmas about the search tool's branches.

lemma execute_state_frame (store : VectorStore) (query : String)
    (course_name : Option String) (lesson_number : Option Int)
    (st : CitationState)
    (h : pyTruthyStr (store.search query course_name lesson_number).error = true ∨
         (store.search query course_name lesson_number).is_empty = true) :
    (CourseSearchTool.execute store query course_name lesson_number st).2 = st := by
  by_cases he :
      pyTruthyStr (store.search query course_name lesson_number).error = true
  · simp [CourseSearchTool.execute, he]
  · rcases h with h | h
    · exact absurd h he
    · simp [CourseSearchTool.execute, he, h]

lemma execute_format_branch (store : VectorStore) (query : String)
    (course_name : Option String) (lesson_number : Option Int)
    (st : CitationState)
    (herr : pyTruthyStr (store.search query course_name lesson_number).error = false)
    (hemp : (store.search query course_name lesson_number).is_empty = false) :
    CourseSearchTool.execute store query course_name lesson_number st =
      CourseSearchTool.format_results store
        (store.search query course_name lesson_number) st := by
  simp [CourseSearchTool.execute, herr, hemp]

lemma execute_empty_branch (store : VectorStore) (query : String)
    (course_name : Option String) (lesson_number : Option Int)
    (st : CitationState)
    (herr : pyTruthyStr (store.search query course_name lesson_number).error = false)
    (hemp : (store.search query course_name lesson_number).is_empty = true) :
    (CourseSearchTool.execute store query course_name lesson_number st).1 =
      CourseSearchTool.no_content_message course_name lesson_number := by
  simp [CourseSearchTool.execute, herr, hemp]

/-- C3 counterexample: with no matching content and the supplied filter
`lesson_number = 0`, `execute` returns the bare "No relevant content found."
message — the claimed " in lesson 0" suffix is absent, because the code tests
the filter with Python truthiness and 0 is falsy. -/
theorem C3_counterexample :
    (CourseSearchTool.execute emptyStore "q" none (some 0)
        initCitationState).1 = "No relevant content found." ∧
    (CourseSearchTool.execute emptyStore "q" none (some 0)
        initCitationState).1 ≠ "No relevant content found in lesson 0." := by
  constructor
  · rfl
  · decide

/-- C3 (amended): on an empty result set the message is "No relevant content
found" plus, in fixed order, the course suffix when the course name is truthy
(present and non-empty) and the lesson suffix when the lesson number is truthy
(present and non-zero) — so a supplied lesson number of 0 is treated as no
filter and adds no suffix, and with no filters the message is exactly
"No relevant content found.". -/
theorem C3_empty_message (store : VectorStore) (query : String)
    (course_name : Option String) (lesson_number : Option Int)
    (st : CitationState)
    (h : ∀ (cn : Option String) (ln : Option Int),
      pyTruthyStr (store.search query cn ln).error = false ∧
      (store.search query cn ln).is_empty = true) :
    (CourseSearchTool.execute store query course_name lesson_number st).1 =
      "No relevant content found" ++
        (match course_name with
         | some cn => if cn != "" then " in course '" ++ cn ++ "'" else ""
         | none => "") ++
        (match lesson_number with
         | some n => if n != 0 then " in lesson " ++ toString n else ""
         | none => "") ++ "." ∧
    (CourseSearchTool.execute store query none none st).1 =
      "No relevant content found." ∧
    (CourseSearchTool.execute store query none (some 0) st).1 =
      "No relevant content found." := by
  have hgen : ∀ (cn : Option String) (ln : Option Int),
      (CourseSearchTool.execute store query cn ln st).1 =
        CourseSearchTool.no_content_message cn ln := fun cn ln =>
    execute_empty_branch store query cn ln st (h cn ln).1 (h cn ln).2
  refine ⟨?_, ?_, ?_⟩
  · rw [hgen]; rfl
  · rw [hgen]; decide
  · rw [hgen]; decide

/-- C3 witness: on the contentless store, both truthy filters supplied yield
both suffixes in order; the no-filter call yields the bare message. -/
theorem C3_empty_message_witness :
    (CourseSearchTool.execute emptyStore "q" (some "X") (some 2)
        initCitationState).1 =
      "No relevant content found in course 'X' in lesson 2." ∧
    (CourseSearchTool.execute emptyStore "q" none none initCitationState).1 =
      "No relevant content found." := by
  have h := C3_empty_message emptyStore "q" (some "X") (some 2)
    initCitationState (fun _ _ => ⟨rfl, rfl⟩)
  exact ⟨h.1.trans (by decide), h.2.1⟩

/-- C5: formatting preserves store order over `zip(documents, metadata)`
pairs; each block is the `[{course_title}( - Lesson {n})?]` header joined to
the document by a newline, blocks joined by a blank line; lesson 0 renders
" - Lesson 0" and an absent lesson number omits the segment, as on the
[1, None] example. -/
theorem C5_format_blocks (store : VectorStore) (results : SearchResults)
    (st : CitationState) :
    (CourseSearchTool.format_results store results st).1 =
      String.intercalate "\n\n"
        ((results.documents.zip results.metadata).map (fun p =>
          "[" ++ p.2.course_title.getD "unknown" ++
            (match p.2.lesson_number with
             | some n => " - Lesson " ++ toString n
             | none => "") ++ "]" ++ "\n" ++ p.1)) ∧
    CourseSearchTool.header ⟨some "C", some 0⟩ = "[C - Lesson 0]" ∧
    CourseSearchTool.header ⟨some "C", none⟩ = "[C]" ∧
    (CourseSearchTool.format_results store
        (SearchResults.mk ["d1", "d2"]
          [Metadata.mk (some "C") (some 1), Metadata.mk (some "C") none]
          none) st).1 =
      "[C - Lesson 1]\nd1\n\n[C]\nd2" := by
  refine ⟨rfl, by decide, by decide, rfl⟩

/-- C9: when `execute` takes the error branch (truthy store error) or the
empty-result branch, the citation state after the call is exactly the state
before it — earlier citations persist. -/
theorem C9_error_empty_frame (store : VectorStore) (query : String)
    (course_name : Option String) (lesson_number : Option Int)
    (st : CitationState)
    (h : pyTruthyStr (store.search query course_name lesson_number).error = true ∨
         (store.search query course_name lesson_number).is_empty = true) :
    (CourseSearchTool.execute store query course_name lesson_number st).2 = st :=
  execute_state_frame store query course_name lesson_number st h

/-- C9 witness: the erroring query leaves a non-trivial prior state intact. -/
theorem C9_error_empty_frame_witness :
    (CourseSearchTool.execute cexStore "err" none none
        ⟨["old"], some [some "l"]⟩).2 = ⟨["old"], some [some "l"]⟩ :=
  C9_error_empty_frame cexStore "err" none none ⟨["old"], some [some "l"]⟩
    (Or.inl (by decide))

/-- C10: when documents and metadata have different lengths, `_format_results`
builds exactly `min` many blocks and citation arrays of that same length
(`zip` with `strict=False` silently truncates; the function is total, so no
error is raised). -/
theorem C10_mismatch_truncates (store : VectorStore) (results : SearchResults)
    (st : CitationState)
    (h : results.documents.length ≠ results.metadata.length) :
    (CourseSearchTool.formatted results).length =
      min results.documents.length results.metadata.length ∧
    ((CourseSearchTool.format_results store results st).2.last_sources).length =
      min results.documents.length results.metadata.length ∧
    (CourseSearchTool.format_results store results st).2.last_source_links =
      some (CourseSearchTool.source_links store results) ∧
    (CourseSearchTool.source_links store results).length =
      min results.documents.length results.metadata.length := by
  refine ⟨?_, ?_, rfl, ?_⟩ <;>
    simp [CourseSearchTool.formatted, CourseSearchTool.format_results,
      CourseSearchTool.sources, CourseSearchTool.source_links]

/-- C10 witness: two documents against one metadata entry format to one block
and one citation of each kind. -/
theorem C10_mismatch_truncates_witness :
    ((CourseSearchTool.format_results cexStore
        ⟨["a", "b"], [⟨some "T", none⟩], none⟩
        initCitationState).2.last_sources).length = 1 :=
  ((C10_mismatch_truncates cexStore ⟨["a", "b"], [⟨some "T", none⟩], none⟩
      initCitationState (by decide)).2.1).trans (by decide)

/-- C1 counterexample: a successful search (one block) followed by an
erroring `execute` call leaves the previous call's citation — the state after
the error call has length 1, not the claimed 0. -/
theorem C1_counterexample :
    ((CourseSearchTool.execute cexStore "err" none none
        (CourseSearchTool.execute cexStore "hello" none none
          initCitationState).2).2).last_sources = ["Course T - Lesson 1"] ∧
    ¬ ((CourseSearchTool.execute cexStore "err" none none
        (CourseSearchTool.execute cexStore "hello" none none
          initCitationState).2).2).last_sources.length = 0 := by
  constructor
  · rfl
  · decide

/-- C1 (amended): an `execute` call that reaches the formatting branch leaves
the citation state equal to exactly the parallel label/link arrays of that
call, its length the number of formatted blocks, independent of the prior
state (full replacement, never appended); the error and empty-result branches
of the search tool and the not-found branch of the outline tool leave the
prior state unchanged (not reset to zero); the outline tool's found branch
sets the singleton (title, link) state. -/
theorem C1_citation_overwrite (store : VectorStore)
    (query course_title : String) (course_name : Option String)
    (lesson_number : Option Int) (st : CitationState) (info : CourseInfo) :
    (pyTruthyStr (store.search query course_name lesson_number).error = false →
     (store.search query course_name lesson_number).is_empty = false →
     (CourseSearchTool.execute store query course_name lesson_number st).2 =
       ⟨CourseSearchTool.sources (store.search query course_name lesson_number),
        some (CourseSearchTool.source_links store
          (store.search query course_name lesson_number))⟩ ∧
     ((CourseSearchTool.execute store query course_name lesson_number
         st).2).last_sources.length =
       (CourseSearchTool.formatted
         (store.search query course_name lesson_number)).length) ∧
    (pyTruthyStr (store.search query course_name lesson_number).error = true ∨
     (store.search query course_name lesson_number).is_empty = true →
     (CourseSearchTool.execute store query course_name lesson_number st).2 =
       st) ∧
    (store.get_course_by_title course_title = some info →
     (CourseOutlineTool.execute store course_title st).2 =
       ⟨[info.title.getD "Unknown Course"],
        some [some (info.link.getD "No link available")]⟩) ∧
    (store.get_course_by_title course_title = none →
     (CourseOutlineTool.execute store course_title st).2 = st) := by
  refine ⟨fun herr hemp => ?_, fun h => execute_state_frame store query
    course_name lesson_number st h, fun h => ?_, fun h => ?_⟩
  · rw [execute_format_branch store query course_name lesson_number st herr hemp]
    refine ⟨rfl, ?_⟩
    simp [CourseSearchTool.format_results, CourseSearchTool.sources,
      CourseSearchTool.formatted]
  · simp [CourseOutlineTool.execute, h, CourseOutlineTool.format_course_outline]
  · simp [CourseOutlineTool.execute, h]

/-- C1 witness: a successful search over a prior stale state replaces it with
exactly that call's label/link arrays. -/
theorem C1_citation_overwrite_witness :
    (CourseSearchTool.execute cexStore "hello" none none
        ⟨["stale"], some [none]⟩).2 =
      ⟨CourseSearchTool.sources (cexStore.search "hello" none none),
       some (CourseSearchTool.source_links cexStore
         (cexStore.search "hello" none none))⟩ :=
  ((C1_citation_overwrite cexStore "hello" "c" none none ⟨["stale"], some [none]⟩
      ⟨none, none, none, []⟩).1 (by decide) (by decide)).1

-- Helper lemma for the registry's citation scan.

lemma getLastSourcesAux_eq_nil (ts : List (String × Tool))
    (h : ∀ p ∈ ts, p.2.last_sources = none ∨ p.2.last_sources = some []) :
    getLastSourcesAux ts = [] := by
  induction ts with
  | nil => rfl
  | cons p rest ih =>
    obtain ⟨n, t⟩ := p
    have hp := h (n, t) (by simp)
    have hrest := ih (fun q hq => h q (List.mem_cons_of_mem _ hq))
    rcases hp with hp | hp
    · simp only at hp
      simp only [getLastSourcesAux, hp, hrest]
    · simp only at hp
      simp only [getLastSourcesAux, hp, List.isEmpty_nil, if_true, hrest]

/-- C6: `get_last_sources` returns `[]` when every registered tool's citation
attribute is absent or empty, and when the first two registered tools both
hold non-empty citations it returns exactly the first-registered one's
(first-match, not a union). -/
theorem C6_first_match (ts rest : List (String × Tool)) (n1 n2 : String)
    (a b : Tool) (la lb : List String)
    (hall : ∀ p ∈ ts, p.2.last_sources = none ∨ p.2.last_sources = some [])
    (ha : a.last_sources = some la) (hla : la ≠ [])
    (hb : b.last_sources = some lb) (hlb : lb ≠ []) :
    ToolManager.get_last_sources ⟨ts⟩ = [] ∧
    ToolManager.get_last_sources ⟨(n1, a) :: (n2, b) :: rest⟩ = la := by
  constructor
  · exact getLastSourcesAux_eq_nil ts hall
  · have hne : la.isEmpty = false := by
      cases la with
      | nil => exact absurd rfl hla
      | cons x xs => rfl
    simp only [ToolManager.get_last_sources, getLastSourcesAux, ha, hne,
      Bool.false_eq_true, if_false]

/-- C6 witness: an empty registry yields `[]`; with two citation-holding tools
registered, the first one's citations surface. -/
theorem C6_first_match_witness :
    ToolManager.get_last_sources ⟨[]⟩ = [] ∧
    ToolManager.get_last_sources
      ⟨[("search_course_content", toolA), ("get_course_outline", toolB)]⟩ =
      ["a1"] := by
  have h := C6_first_match [] [] "search_course_content" "get_course_outline"
    toolA toolB ["a1"] ["b1"] (by intro p hp; simp at hp) rfl (by decide)
    rfl (by decide)
  exact ⟨h.1, h.2⟩

/-- C7: `execute_tool` on a name absent from the registry returns exactly
"Tool '{name}' not found" (it is a total function, so it never throws); on a
registered name it forwards the kwargs to that tool's `execute` and returns
its result. -/
theorem C7_dispatch (ts : List (String × Tool)) (tool_name : String)
    (kwargs : List (String × String)) (t : Tool) :
    (lookupKey ts tool_name = none →
      ToolManager.execute_tool ⟨ts⟩ tool_name kwargs =
        "Tool '" ++ tool_name ++ "' not found") ∧
    (lookupKey ts tool_name = some t →
      ToolManager.execute_tool ⟨ts⟩ tool_name kwargs = t.exec kwargs) := by
  constructor
  · intro h; simp [ToolManager.execute_tool, h]
  · intro h; simp [ToolManager.execute_tool, h]

/-- C7 witness: a registry holding only toolA under "search_course_content"
answers an unknown name with the not-found string and forwards a known one. -/
theorem C7_dispatch_witness :
    ToolManager.execute_tool ⟨[("search_course_content", toolA)]⟩ "missing" [] =
      "Tool '" ++ "missing" ++ "' not found" ∧
    ToolManager.execute_tool ⟨[("search_course_content", toolA)]⟩
      "search_course_content" [("query", "x")] = toolA.exec [("query", "x")] :=
  ⟨(C7_dispatch [("search_course_content", toolA)] "missing" [] toolA).1 rfl,
   (C7_dispatch [("search_course_content", toolA)] "search_course_content"
      [("query", "x")] toolA).2 rfl⟩
